import Mathlib

/-!
Shallow embedding of the HyperRAM read/write example application
(`src/main.c`) and proofs about its specification.

The program's own logic (pattern fill, hex dump, byte-wise verification,
the XIP increment check, the check-and-halt error policy of `main`) is
translated directly from the C source.  The vendor-SDK HyperBus transfer
routines and the memory-mapped (XIP) window are not part of this
repository; they are modelled from the spec as an abstract byte-addressed
memory, which is exactly the "no intervening external modification"
round-trip contract the spec states.
-/

namespace HyperramRW

/-- Macro SIZE_IN_BYTES from main.c: size of both transfer buffers. -/
def SIZE_IN_BYTES : Nat := 64

/-- Macro BYTES_PER_LINE from main.c: bytes per dump line. -/
def BYTES_PER_LINE : Nat := 8

/-- Macro HB_SECTOR_SIZE from main.c (256 KB). -/
def HB_SECTOR_SIZE : Nat := 0x00040000

/-- Macro TEST_SECTOR_NO from main.c. -/
def TEST_SECTOR_NO : Nat := 0

/-- Macro TEST_SECTOR_ADDRESS = HB_SECTOR_SIZE * TEST_SECTOR_NO. -/
def TEST_SECTOR_ADDRESS : Nat := HB_SECTOR_SIZE * TEST_SECTOR_NO

/-- Macro LOOP_VALUE from main.c. -/
def LOOP_VALUE : Nat := 20

/-- Number of 16-bit transfers passed to the HyperBus read/write calls. -/
def TRANSFER_COUNT : Nat := 32

/-- Bytes moved by one burst: 32 transfers of uint16_t, i.e. 64 bytes. -/
def TRANSFER_BYTES : Nat := 2 * TRANSFER_COUNT

/-- Function executed_api from main.c: `data++` on a uint8_t argument,
returning the incremented value; uint8_t arithmetic wraps at 256. -/
def executed_api (data : Nat) : Nat := (data + 1) % 256

/-- One hexadecimal digit character, uppercase, as produced by `%X`. -/
def hexDigit (n : Nat) : Char :=
  if n < 10 then Char.ofNat (48 + n) else Char.ofNat (55 + n)

/-- Output of `printf("0x%02X ", b)` for a byte b: the two characters 0x,
two uppercase hex digits, and a trailing space. -/
def hexByte (b : Nat) : String :=
  String.mk ['0', 'x', hexDigit (b / 16 % 16), hexDigit (b % 16), ' ']

/-- A character that is an uppercase hexadecimal digit. -/
def isHexDigitChar (c : Char) : Bool :=
  ('0' ≤ c && c ≤ '9') || ('A' ≤ c && c ≤ 'F')

/-- Header line of print_array: `printf("\n\r%s (%u bytes):\n\r", ...)`. -/
def printArrayHeader (message : String) (size : Nat) : String :=
  "\n\r" ++ message ++ " (" ++ toString size ++ " bytes):\n\r"

/-- A run of n copies of one character, used for the separator lines
that the C source writes as long literal runs. -/
def charRun (c : Char) (n : Nat) : String := String.mk (List.replicate n c)

/-- Separator line printed by print_array: 25 dashes. -/
def printArraySep : String := charRun '-' 25 ++ "\r\n"

/-- Byte-printing loop of print_array, translated from
`for (index = 0; index < size; index++)`: the first argument is the
current loop index, the second the number of remaining iterations.
Each iteration prints the byte in hex and, after every 8th byte
(`0u == ((index + 1) % BYTES_PER_LINE)`), a line break. -/
def printArrayGoAux (buf : List Nat) : Nat → Nat → List String
  | _, 0 => []
  | index, k + 1 =>
      hexByte (buf.getD index 0) ::
        ((if (index + 1) % BYTES_PER_LINE = 0 then ["\r\n"] else []) ++
          printArrayGoAux buf (index + 1) k)

/-- The byte-printing loop of print_array run from index 0 for size steps. -/
def printArrayLoop (buf : List Nat) (size : Nat) : List String :=
  printArrayGoAux buf 0 size

/-- Function print_array from main.c, as the list of strings it writes to
the console: header, separator, then the byte loop. -/
def print_array (message : String) (buf : List Nat) (size : Nat) : List String :=
  printArrayHeader message size :: printArraySep :: printArrayLoop buf size

/-- Number of line breaks among a list of printed strings. -/
def lineBreakCount (l : List String) : Nat :=
  l.countP fun s => decide (s = "\r\n")

/-- One iteration of the print_array loop acting on an explicit state:
the state carries the message string and the buffer (everything the C
function can reach through its pointer arguments) plus the output so
far.  The body only reads `buf[index]` and appends to the output. -/
def printArrayStep (st : (String × List Nat) × List String) (index : Nat) :
    (String × List Nat) × List String :=
  (st.1, st.2 ++
    (hexByte (st.1.2.getD index 0) ::
      (if (index + 1) % BYTES_PER_LINE = 0 then ["\r\n"] else [])))

/-- The print_array loop as a state transformer (index, remaining steps). -/
def printArrayGoSt (index : Nat) :
    Nat → (String × List Nat) × List String → (String × List Nat) × List String
  | 0, st => st
  | k + 1, st => printArrayGoSt (index + 1) k (printArrayStep st index)

/-- Function print_array as a state transformer: starts from the state
holding the caller's message and buffer and the two header lines, then
runs the byte loop. -/
def print_arraySt (message : String) (buf : List Nat) (size : Nat) :
    (String × List Nat) × List String :=
  printArrayGoSt 0 size ((message, buf), [printArrayHeader message size, printArraySep])

/-- C `memset(buf, v, n)` on a byte buffer. -/
def memsetBuf (buf : List Nat) (v n : Nat) : List Nat :=
  (List.range buf.length).map fun i => if i < n then v else buf.getD i 0

/-- C `0u != memcmp(a, b, n)` on byte buffers: true iff some byte among
the first n differs. -/
def memcmpNe (a b : List Nat) (n : Nat) : Bool :=
  (List.range n).any fun i => a.getD i 0 != b.getD i 0

/-- Writing a block of bytes at offset 0 of a buffer, as done by a read
into `rx_buf` or by `memcpy(rx_buf, src, n)`. -/
def bufWrite (buf data : List Nat) : List Nat :=
  data ++ buf.drop data.length

/-- The TX-buffer fill loop of main.c:
`for (index = 1; index < SIZE_IN_BYTES; index++) tx_buf[index] = (uint8_t)index;`
Index 0 is never written. -/
def fillTx (buf : List Nat) : List Nat :=
  (List.range' 1 (SIZE_IN_BYTES - 1)).foldl (fun b index => b.set index (index % 256)) buf

/-- Modelled from the spec: Cy_SMIF_HyperBus_Write (vendor SDK, not in
this repository) stores the buffer's bytes into the external HyperRAM at
the given byte address; memory is an abstract byte-addressed store. -/
def hyperbusWrite (mem : Nat → Nat) (addr : Nat) (buf : List Nat) : Nat → Nat :=
  fun a => if addr ≤ a ∧ a < addr + buf.length then buf.getD (a - addr) 0 else mem a

/-- Modelled from the spec: Cy_SMIF_HyperBus_Read (vendor SDK, not in
this repository) returns n consecutive bytes of the external HyperRAM
starting at the given byte address; device cells hold bytes. -/
def hyperbusRead (mem : Nat → Nat) (addr n : Nat) : List Nat :=
  (List.range n).map fun i => mem (addr + i) % 256

/-- Modelled from the spec: the memory-mapped (XIP) window presents the
external memory contents directly, so a memcpy from the window reads n
consecutive bytes starting at the given device address. -/
def xipRead (mem : Nat → Nat) (addr n : Nat) : List Nat :=
  (List.range n).map fun i => mem (addr + i) % 256

/-- Environment of one run of main: the outcome of each fallible SDK
call, the initial external-memory contents, the initial (stale) contents
of the two stack buffers, and an external modification of the memory
that may happen between the write and the read-back (`id` means the
spec's "no intervening external modification"). -/
structure Env where
  cybspOk : Bool
  retargetOk : Bool
  smifInitOk : Bool
  memslotOk : Bool
  read1Ok : Bool
  writeOk : Bool
  read2Ok : Bool
  mem0 : Nat → Nat
  tx0 : Nat → Nat
  rx0 : Nat → Nat
  corrupt : (Nat → Nat) → (Nat → Nat)

/-- Initial (stale) contents of tx_buf as a 64-byte list. -/
def txInit (env : Env) : List Nat :=
  (List.range SIZE_IN_BYTES).map fun i => env.tx0 i % 256

/-- Initial (stale) contents of rx_buf as a 64-byte list. -/
def rxInit (env : Env) : List Nat :=
  (List.range SIZE_IN_BYTES).map fun i => env.rx0 i % 256

/-- tx_buf after the fill loop of main.c. -/
def tx_buf (env : Env) : List Nat := fillTx (txInit env)

/-- rx_buf right after `memset(rx_buf, 0, SIZE_IN_BYTES)` at line 175,
immediately before the first HyperBus read. -/
def rxPre1 (env : Env) : List Nat := memsetBuf (rxInit env) 0 SIZE_IN_BYTES

/-- rx_buf after the first HyperBus read (read before write). -/
def rxAfterRead1 (env : Env) : List Nat :=
  bufWrite (rxPre1 env) (hyperbusRead env.mem0 TEST_SECTOR_ADDRESS TRANSFER_BYTES)

/-- External memory after the HyperBus write of tx_buf. -/
def memAfterWrite (env : Env) : Nat → Nat :=
  hyperbusWrite env.mem0 TEST_SECTOR_ADDRESS (tx_buf env)

/-- External memory at the time of the read-back, after any intervening
external modification. -/
def memAtRead2 (env : Env) : Nat → Nat := env.corrupt (memAfterWrite env)

/-- rx_buf right after `memset(rx_buf, 0, SIZE_IN_BYTES)` at line 229,
immediately before the verification read-back. -/
def rxPre2 (env : Env) : List Nat := memsetBuf (rxAfterRead1 env) 0 SIZE_IN_BYTES

/-- rx_buf after the verification read-back. -/
def rxAfterRead2 (env : Env) : List Nat :=
  bufWrite (rxPre2 env) (hyperbusRead (memAtRead2 env) TEST_SECTOR_ADDRESS TRANSFER_BYTES)

/-- rx_buf right after `memset(rx_buf, 0, SIZE_IN_BYTES)` at line 273,
immediately before the XIP memcpy. -/
def rxPre3 (env : Env) : List Nat := memsetBuf (rxAfterRead2 env) 0 SIZE_IN_BYTES

/-- rx_buf after the XIP-window memcpy. -/
def rxAfterXip (env : Env) : List Nat :=
  bufWrite (rxPre3 env) (xipRead (memAtRead2 env) TEST_SECTOR_ADDRESS SIZE_IN_BYTES)

/-- One observable event of a run of main: a console print, or the
CY_ASSERT(0) debug trap. -/
inductive Event where
  | print : String → Event
  | assertHalt : Event
deriving DecidableEq, Repr

/-- Lift a list of printed strings to events. -/
def printsOf (l : List String) : List Event := l.map Event.print

/-- Whether an event is a console print. -/
def isPrintEv : Event → Bool
  | Event.print _ => true
  | Event.assertHalt => false

/-- ANSI clear-screen sequence printed first. -/
def clearScreenSeq : String := "\x1b[2J\x1b[;H"

/-- Banner line (the three adjacent C string literals concatenated):
18 asterisks on either side of the title. -/
def bannerLine : String :=
  charRun '*' 18 ++ " HyperRAM Read and Write " ++ charRun '*' 18 ++ " \r\n\n"

/-- Short separator printed around the success report: 45 equals
signs. -/
def sepLine : String := "\r\n" ++ charRun '=' 45 ++ "\r\n"

/-- Long separator printed around the mismatch report: 74 equals
signs. -/
def bigSepLine : String := "\r\n" ++ charRun '=' 74 ++ "\r\n"

/-- Mismatch report line. -/
def mismatchLine : String :=
  "\r\nRead data does not match with written data. Read/Write operation failed. \n\r"

/-- Success report line. -/
def matchLine : String := "\r\nSUCCESS: Read data matches with written data!\r\n"

/-- Diagnostic printed when Cy_SMIF_Init fails. -/
def smifInitFailLine : String := "\r\nCy_SMIF_Init - Fail \n\r"

/-- Diagnostic printed when Cy_SMIF_Memslot_Init fails. -/
def memslotFailLine : String := "\r\nCy_SMIF_Memslot_Init - Fail \n\r"

/-- Diagnostic printed when the first read fails. -/
def read1FailLine : String := "\r\n1. Reading Data before write - Fail \n\r"

/-- Step line printed when the first read succeeds. -/
def read1SuccLine : String := "\r\n1. Reading Data before write - Success \n\r"

/-- Diagnostic printed when the write fails. -/
def writeFailLine : String := "\r\n2. Writing data to memory - Fail \n\r"

/-- Step line printed when the write succeeds. -/
def writeSuccLine : String := "\r\n2. Writing data to memory - Success \n\r"

/-- Diagnostic printed when the read-back fails. -/
def read2FailLine : String := "\r\n3. Reading back for verification - Fail \n\r"

/-- Step line printed when the read-back succeeds. -/
def read2SuccLine : String := "\r\n3. Reading back for verification - Success \n\r"

/-- Header lines of the XIP verification phase. -/
def xipHdr1 : String := "\n\rVerify execution from memory in XIP Mode\n\r"

/-- Second header line of the XIP verification phase: 44 dashes. -/
def xipHdr2 : String := charRun '-' 44 ++ "\n\r"

/-- Line printed when the XIP increment check succeeds. -/
def xipSuccessLine : String := "XIP Read Functionality - Success\n\r"

/-- Line printed when the XIP increment check fails. -/
def xipFailLine : String := "XIP Read Functionality - Fail\n\r"

/-- Final completion line. -/
def completedLine : String := "\n\rCompleted SMIF HyperRAM Test app verification\n\r"

/-- Events printed between retarget-io success and Cy_SMIF_Init. -/
def traceP0 : List Event := [Event.print clearScreenSeq, Event.print bannerLine]

/-- Trace up to and including the dump after the first (pre-write) read. -/
def traceAfterRead1 (env : Env) : List Event :=
  traceP0 ++ [Event.print read1SuccLine] ++
    printsOf (print_array "Received Data before write" (rxAfterRead1 env) SIZE_IN_BYTES) ++
    [Event.print sepLine]

/-- Trace up to and including the dump after the successful write. -/
def traceAfterWrite (env : Env) : List Event :=
  traceAfterRead1 env ++ [Event.print writeSuccLine] ++
    printsOf (print_array "Written Data" (tx_buf env) SIZE_IN_BYTES) ++
    [Event.print sepLine]

/-- Trace up to and including the dump after the successful read-back. -/
def traceAfterRead2 (env : Env) : List Event :=
  traceAfterWrite env ++ [Event.print read2SuccLine] ++
    printsOf (print_array "Received Data" (rxAfterRead2 env) SIZE_IN_BYTES)

/-- The verification branch of main.c:
`if (0u != memcmp(tx_buf, rx_buf, SIZE_IN_BYTES))` prints the mismatch
block, else the success block. -/
def verifyEvents (txb rxb : List Nat) : List Event :=
  if memcmpNe txb rxb SIZE_IN_BYTES = true then
    [Event.print bigSepLine, Event.print mismatchLine, Event.print bigSepLine]
  else
    [Event.print sepLine, Event.print matchLine, Event.print sepLine]

/-- Events of the XIP phase: dump of the memcpy result, the two header
lines, the increment-check branch, and the completion line. -/
def xipEvents (env : Env) : List Event :=
  printsOf (print_array "4. XIP READ " (rxAfterXip env) SIZE_IN_BYTES) ++
    [Event.print xipHdr1, Event.print xipHdr2] ++
    (if executed_api LOOP_VALUE = LOOP_VALUE + 1 then [Event.print xipSuccessLine]
     else [Event.print xipFailLine]) ++
    [Event.print completedLine]

/-- The observable behaviour of main, translated check by check from
main.c: the list of events, and whether the run ended in CY_ASSERT(0)
(true) or reached the final idle loop (false). -/
def mainTrace (env : Env) : List Event × Bool :=
  if env.cybspOk = true then
    if env.retargetOk = true then
      if env.smifInitOk = true then
        if env.memslotOk = true then
          if env.read1Ok = true then
            if env.writeOk = true then
              if env.read2Ok = true then
                (traceAfterRead2 env ++
                  verifyEvents (tx_buf env) (rxAfterRead2 env) ++ xipEvents env, false)
              else (traceAfterWrite env ++ [Event.print read2FailLine, Event.assertHalt], true)
            else (traceAfterRead1 env ++ [Event.print writeFailLine, Event.assertHalt], true)
          else (traceP0 ++ [Event.print read1FailLine, Event.assertHalt], true)
        else (traceP0 ++ [Event.print memslotFailLine, Event.assertHalt], true)
      else (traceP0 ++ [Event.print smifInitFailLine, Event.assertHalt], true)
    else ([Event.assertHalt], true)
  else ([Event.assertHalt], true)

/-- All seven fallible calls succeed. -/
def allOk (env : Env) : Bool :=
  env.cybspOk && env.retargetOk && env.smifInitOk && env.memslotOk &&
    env.read1Ok && env.writeOk && env.read2Ok

/-- A concrete run where every call succeeds, the device memory starts
zeroed, both stack buffers start zeroed, and nothing modifies the memory
between write and read-back. -/
def envOk : Env :=
  { cybspOk := true, retargetOk := true, smifInitOk := true, memslotOk := true,
    read1Ok := true, writeOk := true, read2Ok := true,
    mem0 := fun _ => 0, tx0 := fun _ => 0, rx0 := fun _ => 0, corrupt := id }

/-- A concrete run where board init fails. -/
def envBoardFail : Env := { envOk with cybspOk := false }

/-- A concrete run where Cy_SMIF_Init fails. -/
def envSmifFail : Env := { envOk with smifInitOk := false }

/-- A concrete run where an external agent overwrites device byte 1
between the write and the read-back. -/
def envBad : Env :=
  { envOk with corrupt := fun m a => if a = 1 then 255 else m a }

/-! Helper lemmas about the embedded operations. -/

/-- getD after a set: the written value at the written (in-range) index,
the old value elsewhere. -/
lemma getD_set (l : List Nat) (i j a : Nat) :
    (l.set i a).getD j 0 = if i = j ∧ i < l.length then a else l.getD j 0 := by
  simp only [List.getD_eq_getElem?_getD, List.getElem?_set]
  by_cases h : i = j
  · subst h
    by_cases h2 : i < l.length
    · simp [h2]
    · rw [List.getElem?_eq_none (Nat.le_of_not_lt h2)]
      simp [h2]
  · simp [h]

/-- A fold of pointwise writes reads back as the written function on the
written in-range indices and as the original buffer elsewhere. -/
lemma foldl_set_getD (f : Nat → Nat) :
    ∀ (l : List Nat) (buf : List Nat) (j : Nat),
      (l.foldl (fun b i => b.set i (f i)) buf).getD j 0 =
        if j ∈ l ∧ j < buf.length then f j else buf.getD j 0
  | [], buf, j => by simp
  | a :: l, buf, j => by
      rw [List.foldl_cons, foldl_set_getD f l, List.length_set, getD_set]
      by_cases hja : a = j
      · subst hja
        by_cases hlen : a < buf.length
        · by_cases hjl : a ∈ l <;> simp [hjl, hlen, List.mem_cons]
        · by_cases hjl : a ∈ l <;> simp [hjl, hlen, List.mem_cons]
      · by_cases hjl : j ∈ l <;> by_cases hlen : j < buf.length <;>
          simp [hja, hjl, hlen, List.mem_cons, Ne.symm hja]

/-- A fold of pointwise writes preserves the buffer length. -/
lemma foldl_set_length (f : Nat → Nat) :
    ∀ (l : List Nat) (buf : List Nat),
      (l.foldl (fun b i => b.set i (f i)) buf).length = buf.length
  | [], _ => rfl
  | a :: l, buf => by rw [List.foldl_cons, foldl_set_length f l, List.length_set]

lemma txInit_length (env : Env) : (txInit env).length = SIZE_IN_BYTES := by
  simp [txInit]

lemma txInit_getD (env : Env) (i : Nat) (h : i < SIZE_IN_BYTES) :
    (txInit env).getD i 0 = env.tx0 i % 256 := by
  rw [txInit, List.getD_eq_getElem?_getD, List.getElem?_map, List.getElem?_range h]
  rfl

lemma rxInit_length (env : Env) : (rxInit env).length = SIZE_IN_BYTES := by
  simp [rxInit]

lemma fillTx_length (buf : List Nat) : (fillTx buf).length = buf.length :=
  foldl_set_length _ _ _

/-- Contents of the TX buffer after the fill loop: indices 1 .. 63 hold
the pattern, everything else is untouched. -/
lemma fillTx_getD (buf : List Nat) (h : buf.length = SIZE_IN_BYTES) (j : Nat) :
    (fillTx buf).getD j 0 =
      if 1 ≤ j ∧ j < SIZE_IN_BYTES then j % 256 else buf.getD j 0 := by
  rw [fillTx, foldl_set_getD, h]
  have hc : (j ∈ List.range' 1 (SIZE_IN_BYTES - 1) ∧ j < SIZE_IN_BYTES) ↔
      (1 ≤ j ∧ j < SIZE_IN_BYTES) := by
    simp only [List.mem_range'_1, SIZE_IN_BYTES]
    omega
  rw [if_congr hc rfl rfl]

lemma tx_buf_length (env : Env) : (tx_buf env).length = SIZE_IN_BYTES := by
  rw [tx_buf, fillTx_length, txInit_length]

lemma tx_buf_getD (env : Env) (j : Nat) (h : j < SIZE_IN_BYTES) :
    (tx_buf env).getD j 0 = if 1 ≤ j then j % 256 else env.tx0 0 % 256 := by
  rw [tx_buf, fillTx_getD _ (txInit_length env)]
  by_cases h1 : 1 ≤ j
  · simp [h1, h]
  · have hj : j = 0 := by omega
    subst hj
    rw [if_neg (by simp), if_neg (by omega)]
    exact txInit_getD env 0 (by norm_num [SIZE_IN_BYTES])

/-- Every cell of the filled TX buffer is a byte. -/
lemma tx_buf_lt (env : Env) (j : Nat) : (tx_buf env).getD j 0 < 256 := by
  by_cases h : j < SIZE_IN_BYTES
  · rw [tx_buf_getD env j h]
    by_cases h1 : 1 ≤ j <;> simp [h1] <;> exact Nat.mod_lt _ (by norm_num)
  · rw [List.getD_eq_default]
    · norm_num
    · rw [tx_buf_length]
      omega

/-- Reading a list of values back through getD over a range restores it. -/
lemma map_range_getD (n : Nat) (l : List Nat) (h : l.length = n) :
    (List.range n).map (fun i => l.getD i 0) = l := by
  apply List.ext_getElem
  · simp [h]
  · intro i h1 h2
    rw [List.getElem_map, List.getElem_range]
    exact List.getD_eq_getElem l 0 h2

lemma hyperbusRead_length (mem : Nat → Nat) (addr n : Nat) :
    (hyperbusRead mem addr n).length = n := by
  simp [hyperbusRead]

lemma xipRead_length (mem : Nat → Nat) (addr n : Nat) :
    (xipRead mem addr n).length = n := by
  simp [xipRead]

/-- Round trip through the abstract device memory: reading back the
written span returns the written buffer, byte for byte. -/
lemma read_write_roundtrip (mem : Nat → Nat) (addr : Nat) (buf : List Nat)
    (hb : ∀ i, buf.getD i 0 < 256) :
    hyperbusRead (hyperbusWrite mem addr buf) addr buf.length = buf := by
  apply List.ext_getElem
  · simp [hyperbusRead]
  · intro i h1 h2
    simp only [hyperbusRead, List.getElem_map, List.getElem_range]
    rw [hyperbusWrite]
    have hc : addr ≤ addr + i ∧ addr + i < addr + buf.length :=
      ⟨Nat.le_add_right _ _, by omega⟩
    rw [if_pos hc]
    have hsub : addr + i - addr = i := by omega
    rw [hsub, Nat.mod_eq_of_lt (hb i)]
    exact List.getD_eq_getElem buf 0 h2

lemma bufWrite_eq (buf data : List Nat) (h : buf.length ≤ data.length) :
    bufWrite buf data = data := by
  rw [bufWrite, List.drop_eq_nil_of_le h, List.append_nil]

lemma memsetBuf_length (buf : List Nat) (v n : Nat) :
    (memsetBuf buf v n).length = buf.length := by
  simp [memsetBuf]

/-- A full-size memset of zero turns the buffer into all zeros. -/
lemma memsetBuf_full (buf : List Nat) (h : buf.length = SIZE_IN_BYTES) :
    memsetBuf buf 0 SIZE_IN_BYTES = List.replicate SIZE_IN_BYTES 0 := by
  apply List.ext_getElem
  · simp [memsetBuf, h]
  · intro i h1 h2
    rw [List.getElem_replicate]
    have hi : i < SIZE_IN_BYTES := by
      simpa [memsetBuf, h] using h1
    simp only [memsetBuf, List.getElem_map, List.getElem_range]
    rw [if_pos hi]

lemma rxPre1_eq (env : Env) : rxPre1 env = List.replicate SIZE_IN_BYTES 0 :=
  memsetBuf_full _ (rxInit_length env)

lemma rxPre1_length (env : Env) : (rxPre1 env).length = SIZE_IN_BYTES := by
  rw [rxPre1_eq, List.length_replicate]

lemma rxAfterRead1_eq (env : Env) :
    rxAfterRead1 env = hyperbusRead env.mem0 TEST_SECTOR_ADDRESS TRANSFER_BYTES := by
  apply bufWrite_eq
  rw [rxPre1_length, hyperbusRead_length]
  decide

lemma rxAfterRead1_length (env : Env) : (rxAfterRead1 env).length = SIZE_IN_BYTES := by
  rw [rxAfterRead1_eq, hyperbusRead_length]
  decide

lemma rxPre2_eq (env : Env) : rxPre2 env = List.replicate SIZE_IN_BYTES 0 :=
  memsetBuf_full _ (rxAfterRead1_length env)

lemma rxPre2_length (env : Env) : (rxPre2 env).length = SIZE_IN_BYTES := by
  rw [rxPre2_eq, List.length_replicate]

lemma rxAfterRead2_eq (env : Env) :
    rxAfterRead2 env = hyperbusRead (memAtRead2 env) TEST_SECTOR_ADDRESS TRANSFER_BYTES := by
  apply bufWrite_eq
  rw [rxPre2_length, hyperbusRead_length]
  decide

lemma rxAfterRead2_length (env : Env) : (rxAfterRead2 env).length = SIZE_IN_BYTES := by
  rw [rxAfterRead2_eq, hyperbusRead_length]
  decide

lemma rxPre3_eq (env : Env) : rxPre3 env = List.replicate SIZE_IN_BYTES 0 :=
  memsetBuf_full _ (rxAfterRead2_length env)

/-- With no intervening external modification, the verification
read-back returns exactly the written TX buffer. -/
lemma rx2_eq_tx (env : Env) (h : env.corrupt = id) :
    rxAfterRead2 env = tx_buf env := by
  rw [rxAfterRead2_eq, memAtRead2, h, id_eq, memAfterWrite]
  have hr := read_write_roundtrip env.mem0 TEST_SECTOR_ADDRESS (tx_buf env) (tx_buf_lt env)
  rw [tx_buf_length] at hr
  exact hr

lemma memcmpNe_self (a : List Nat) (n : Nat) : memcmpNe a a n = false := by
  simp [memcmpNe]

lemma memcmpNe_of_diff (a b : List Nat) (n i : Nat) (hi : i < n)
    (hd : a.getD i 0 ≠ b.getD i 0) : memcmpNe a b n = true := by
  rw [memcmpNe, List.any_eq_true]
  exact ⟨i, List.mem_range.mpr hi, bne_iff_ne.mpr hd⟩

lemma hexByte_length (b : Nat) : (hexByte b).length = 5 := rfl

lemma hexByte_ne_crlf (b : Nat) : hexByte b ≠ "\r\n" := by
  intro h
  have h5 := congrArg String.length h
  rw [hexByte_length] at h5
  exact absurd h5 (by decide)

/-- The print_array byte loop, written declaratively: one hex token per
index, followed by a line break after every 8th byte printed. -/
lemma printArrayGoAux_eq (buf : List Nat) :
    ∀ (k index : Nat),
      printArrayGoAux buf index k =
        (List.range' index k).flatMap fun i =>
          hexByte (buf.getD i 0) ::
            (if (i + 1) % BYTES_PER_LINE = 0 then ["\r\n"] else [])
  | 0, index => by simp [printArrayGoAux]
  | k + 1, index => by
      rw [List.range'_succ, List.flatMap_cons]
      simp only [printArrayGoAux, printArrayGoAux_eq buf k (index + 1)]
      simp

/-- Line breaks emitted by the loop between index and index + k. -/
lemma lineBreakCount_goAux (buf : List Nat) :
    ∀ (k index : Nat),
      lineBreakCount (printArrayGoAux buf index k) =
        (index + k) / BYTES_PER_LINE - index / BYTES_PER_LINE
  | 0, index => by simp [printArrayGoAux, lineBreakCount]
  | k + 1, index => by
      simp only [printArrayGoAux]
      rw [lineBreakCount, List.countP_cons, List.countP_append]
      rw [decide_eq_false (hexByte_ne_crlf _)]
      have ih := lineBreakCount_goAux buf k (index + 1)
      rw [lineBreakCount] at ih
      simp only [BYTES_PER_LINE] at ih ⊢
      rw [ih]
      by_cases hm : (index + 1) % 8 = 0
      · rw [if_pos hm]
        have h1 : List.countP (fun s => decide (s = "\r\n")) ["\r\n"] = 1 := by decide
        rw [h1]
        simp only [if_false, Bool.false_eq_true]
        omega
      · rw [if_neg hm]
        rw [List.countP_nil]
        simp only [if_false, Bool.false_eq_true]
        omega

/-- Every state the print_array loop produces keeps the first component
(message and buffer) of its input state. -/
lemma printArrayGoSt_fst :
    ∀ (k index : Nat) (st : (String × List Nat) × List String),
      (printArrayGoSt index k st).1 = st.1
  | 0, _, _ => rfl
  | k + 1, index, st => by
      rw [printArrayGoSt, printArrayGoSt_fst k (index + 1)]
      rfl

/-- The output accumulated by the stateful loop is the pure loop's
output appended to what was already there. -/
lemma printArrayGoSt_snd (m : String) (b : List Nat) :
    ∀ (k index : Nat) (out : List String),
      (printArrayGoSt index k ((m, b), out)).2 = out ++ printArrayGoAux b index k
  | 0, index, out => by simp [printArrayGoSt, printArrayGoAux]
  | k + 1, index, out => by
      rw [printArrayGoSt]
      have hstep : printArrayStep ((m, b), out) index =
          ((m, b), out ++
            (hexByte (b.getD index 0) ::
              (if (index + 1) % BYTES_PER_LINE = 0 then ["\r\n"] else []))) := rfl
      rw [hstep, printArrayGoSt_snd m b k (index + 1)]
      simp only [printArrayGoAux]
      simp

/-- Uppercase hex digits are produced for every nibble. -/
lemma hexDigit_isHex : ∀ n : Nat, n < 16 → isHexDigitChar (hexDigit n) = true := by decide

/-- Unfolding of mainTrace when every fallible call succeeds. -/
lemma mainTrace_allOk (env : Env) (h : allOk env = true) :
    mainTrace env =
      (traceAfterRead2 env ++ verifyEvents (tx_buf env) (rxAfterRead2 env) ++
        xipEvents env, false) := by
  simp only [allOk, Bool.and_eq_true] at h
  obtain ⟨⟨⟨⟨⟨⟨hA, hB⟩, hC⟩, hD⟩, hE⟩, hF⟩, hG⟩ := h
  rw [mainTrace, if_pos hA, if_pos hB, if_pos hC, if_pos hD, if_pos hE, if_pos hF,
    if_pos hG]

/-! Claim theorems. -/

/-- C1: round-trip property.  If every call succeeds and nothing
modifies the external memory between the 32-transfer write and the
32-transfer read-back at the same address, then the read-back buffer
equals the transmit buffer, the 64-byte comparison reports no
difference, the success branch is the one emitted, and in particular
every index 1 .. 63 of the read-back buffer holds the pattern byte. -/
theorem c1_roundtrip_match : ∀ env : Env, allOk env = true → env.corrupt = id →
    rxAfterRead2 env = tx_buf env ∧
    memcmpNe (tx_buf env) (rxAfterRead2 env) SIZE_IN_BYTES = false ∧
    verifyEvents (tx_buf env) (rxAfterRead2 env) =
      [Event.print sepLine, Event.print matchLine, Event.print sepLine] ∧
    (∀ i, 1 ≤ i → i < SIZE_IN_BYTES →
      (rxAfterRead2 env).getD i 0 = i % 256 ∧
      (rxAfterRead2 env).getD i 0 = (tx_buf env).getD i 0) ∧
    mainTrace env =
      (traceAfterRead2 env ++
        [Event.print sepLine, Event.print matchLine, Event.print sepLine] ++
        xipEvents env, false) := by
  intro env hok hcor
  have hrt := rx2_eq_tx env hcor
  have hne : memcmpNe (tx_buf env) (rxAfterRead2 env) SIZE_IN_BYTES = false := by
    rw [hrt]
    exact memcmpNe_self _ _
  have hv : verifyEvents (tx_buf env) (rxAfterRead2 env) =
      [Event.print sepLine, Event.print matchLine, Event.print sepLine] := by
    rw [verifyEvents, hne]
    simp
  refine ⟨hrt, hne, hv, ?_, ?_⟩
  · intro i h1 h2
    constructor
    · rw [hrt, tx_buf_getD env i h2, if_pos h1]
    · rw [hrt]
  · rw [mainTrace_allOk env hok, hv]

/-- Witness for C1 at a concrete environment. -/
theorem c1_roundtrip_match_witness :
    allOk envOk = true ∧ envOk.corrupt = id ∧ rxAfterRead2 envOk = tx_buf envOk :=
  ⟨by decide, rfl, (c1_roundtrip_match envOk (by decide) rfl).1⟩

/-- C2: after the fill loop, every index 1 ≤ i < 64 of the transmit
buffer holds i mod 256, and index 0 keeps whatever the buffer held. -/
theorem c2_tx_pattern : ∀ buf : List Nat, buf.length = SIZE_IN_BYTES →
    (∀ i, 1 ≤ i → i < SIZE_IN_BYTES → (fillTx buf).getD i 0 = i % 256) ∧
    (fillTx buf).getD 0 0 = buf.getD 0 0 := by
  intro buf h
  constructor
  · intro i h1 h2
    rw [fillTx_getD buf h, if_pos ⟨h1, h2⟩]
  · rw [fillTx_getD buf h, if_neg (by simp)]

/-- Witness for C2 at a concrete buffer. -/
theorem c2_tx_pattern_witness :
    (List.replicate 64 7 : List Nat).length = SIZE_IN_BYTES ∧
    (fillTx (List.replicate 64 7)).getD 5 0 = 5 % 256 ∧
    (fillTx (List.replicate 64 7)).getD 0 0 = (List.replicate 64 7 : List Nat).getD 0 0 :=
  ⟨by decide, (c2_tx_pattern _ (by decide)).1 5 (by decide) (by decide),
    (c2_tx_pattern _ (by decide)).2⟩

/-- C3 counterexample: when board init fails, the program halts through
the assert with no diagnostic line printed at all, contradicting the
claim that every failed check prints a diagnostic line first. -/
theorem c3_board_init_prints_nothing :
    (mainTrace envBoardFail).1.filter isPrintEv = [] ∧
    (mainTrace envBoardFail).2 = true := by decide

/-- C3 amended: every fallible call's status is checked and any failure
halts via the unconditional assert, executing nothing afterwards; the
five SMIF-path failures (SMIF init, memslot init, the two reads, the
write) print a diagnostic line immediately before the halt, while board
init and retarget-io init halt without printing. -/
theorem c3_check_halt_policy : ∀ env : Env,
    (env.cybspOk = false → mainTrace env = ([Event.assertHalt], true)) ∧
    (env.cybspOk = true → env.retargetOk = false →
      mainTrace env = ([Event.assertHalt], true)) ∧
    (env.cybspOk = true → env.retargetOk = true → env.smifInitOk = false →
      mainTrace env = (traceP0 ++ [Event.print smifInitFailLine, Event.assertHalt], true)) ∧
    (env.cybspOk = true → env.retargetOk = true → env.smifInitOk = true →
      env.memslotOk = false →
      mainTrace env = (traceP0 ++ [Event.print memslotFailLine, Event.assertHalt], true)) ∧
    (env.cybspOk = true → env.retargetOk = true → env.smifInitOk = true →
      env.memslotOk = true → env.read1Ok = false →
      mainTrace env = (traceP0 ++ [Event.print read1FailLine, Event.assertHalt], true)) ∧
    (env.cybspOk = true → env.retargetOk = true → env.smifInitOk = true →
      env.memslotOk = true → env.read1Ok = true → env.writeOk = false →
      mainTrace env =
        (traceAfterRead1 env ++ [Event.print writeFailLine, Event.assertHalt], true)) ∧
    (env.cybspOk = true → env.retargetOk = true → env.smifInitOk = true →
      env.memslotOk = true → env.read1Ok = true → env.writeOk = true →
      env.read2Ok = false →
      mainTrace env =
        (traceAfterWrite env ++ [Event.print read2FailLine, Event.assertHalt], true)) := by
  intro env
  refine ⟨?_, ?_, ?_, ?_, ?_, ?_, ?_⟩
  · intro h1
    rw [mainTrace, if_neg (by simp [h1])]
  · intro h1 h2
    rw [mainTrace, if_pos h1, if_neg (by simp [h2])]
  · intro h1 h2 h3
    rw [mainTrace, if_pos h1, if_pos h2, if_neg (by simp [h3])]
  · intro h1 h2 h3 h4
    rw [mainTrace, if_pos h1, if_pos h2, if_pos h3, if_neg (by simp [h4])]
  · intro h1 h2 h3 h4 h5
    rw [mainTrace, if_pos h1, if_pos h2, if_pos h3, if_pos h4, if_neg (by simp [h5])]
  · intro h1 h2 h3 h4 h5 h6
    rw [mainTrace, if_pos h1, if_pos h2, if_pos h3, if_pos h4, if_pos h5,
      if_neg (by simp [h6])]
  · intro h1 h2 h3 h4 h5 h6 h7
    rw [mainTrace, if_pos h1, if_pos h2, if_pos h3, if_pos h4, if_pos h5, if_pos h6,
      if_neg (by simp [h7])]

/-- Witness for C3 at a concrete run where Cy_SMIF_Init fails. -/
theorem c3_check_halt_policy_witness :
    mainTrace envSmifFail =
      (traceP0 ++ [Event.print smifInitFailLine, Event.assertHalt], true) :=
  (c3_check_halt_policy envSmifFail).2.2.1 rfl rfl rfl

/-- C4: when every call succeeds, the run never halts and always goes
on to the XIP phase; a byte difference anywhere in the 64 compared
bytes makes the comparison report a difference, in which case the
mismatch block (and not the distinct success block) is emitted, while
byte-wise equal buffers yield the success block. -/
theorem c4_verify_branching : ∀ env : Env, allOk env = true →
    (mainTrace env).2 = false ∧
    (mainTrace env).1 =
      traceAfterRead2 env ++ verifyEvents (tx_buf env) (rxAfterRead2 env) ++
        xipEvents env ∧
    (∀ i, i < SIZE_IN_BYTES →
      (tx_buf env).getD i 0 ≠ (rxAfterRead2 env).getD i 0 →
      memcmpNe (tx_buf env) (rxAfterRead2 env) SIZE_IN_BYTES = true) ∧
    (memcmpNe (tx_buf env) (rxAfterRead2 env) SIZE_IN_BYTES = true →
      verifyEvents (tx_buf env) (rxAfterRead2 env) =
        [Event.print bigSepLine, Event.print mismatchLine, Event.print bigSepLine]) ∧
    (memcmpNe (tx_buf env) (rxAfterRead2 env) SIZE_IN_BYTES = false →
      verifyEvents (tx_buf env) (rxAfterRead2 env) =
        [Event.print sepLine, Event.print matchLine, Event.print sepLine]) ∧
    [Event.print bigSepLine, Event.print mismatchLine, Event.print bigSepLine] ≠
      [Event.print sepLine, Event.print matchLine, Event.print sepLine] := by
  intro env hok
  have hm := mainTrace_allOk env hok
  refine ⟨by rw [hm], by rw [hm], ?_, ?_, ?_, by decide⟩
  · intro i hi hd
    exact memcmpNe_of_diff _ _ _ i hi hd
  · intro ht
    rw [verifyEvents, if_pos ht]
  · intro hf
    rw [verifyEvents, hf]
    simp

/-- Witness for C4 at a concrete corrupted run: device byte 1 is
overwritten between write and read-back, the mismatch block is emitted
and the run still reaches the idle loop. -/
theorem c4_verify_branching_witness :
    allOk envBad = true ∧
    memcmpNe (tx_buf envBad) (rxAfterRead2 envBad) SIZE_IN_BYTES = true ∧
    (mainTrace envBad).2 = false ∧
    verifyEvents (tx_buf envBad) (rxAfterRead2 envBad) =
      [Event.print bigSepLine, Event.print mismatchLine, Event.print bigSepLine] :=
  ⟨by decide, by decide, (c4_verify_branching envBad (by decide)).1,
    (c4_verify_branching envBad (by decide)).2.2.2.1 (by decide)⟩

/-- C5 counterexample: for a 1-byte buffer the loop emits 0 line
breaks, not ceil(1/8) = 1, refuting the claim that exactly ceil(N/8)
line breaks are emitted for every size N. -/
theorem c5_ceil_counterexample :
    lineBreakCount (printArrayLoop [0] 1) = 0 ∧
    (1 + (BYTES_PER_LINE - 1)) / BYTES_PER_LINE = 1 ∧
    ¬ lineBreakCount (printArrayLoop [0] 1) =
        (1 + (BYTES_PER_LINE - 1)) / BYTES_PER_LINE := by decide

/-- C5 amended: the byte-printing loop of print_array emits exactly
floor(N/8) line breaks for N bytes; this agrees with ceil(N/8) exactly
when 8 divides N (as it does for every call in this program, N = 64). -/
theorem c5_line_break_count : ∀ (buf : List Nat) (size : Nat),
    lineBreakCount (printArrayLoop buf size) = size / BYTES_PER_LINE ∧
    (size % BYTES_PER_LINE = 0 →
      size / BYTES_PER_LINE = (size + (BYTES_PER_LINE - 1)) / BYTES_PER_LINE) := by
  intro buf size
  constructor
  · rw [printArrayLoop, lineBreakCount_goAux]
    simp
  · intro h
    simp only [BYTES_PER_LINE] at *
    omega

/-- Witness for C5 at the program's actual size 64. -/
theorem c5_line_break_count_witness :
    (64 : Nat) % BYTES_PER_LINE = 0 ∧
    lineBreakCount (printArrayLoop (List.replicate 64 0) 64) = 64 / BYTES_PER_LINE ∧
    (64 : Nat) / BYTES_PER_LINE = (64 + (BYTES_PER_LINE - 1)) / BYTES_PER_LINE :=
  ⟨by decide, (c5_line_break_count (List.replicate 64 0) 64).1,
    (c5_line_break_count (List.replicate 64 0) 64).2 (by decide)⟩

/-- C6: print_array first prints the label with the byte count and a
separator, then one token per byte in order, each token being 0x
followed by exactly two uppercase hexadecimal digit characters and a
space, with a line break after every 8th byte printed; it is a total
function of its inputs (no error conditions). -/
theorem c6_dump_format : ∀ (message : String) (buf : List Nat) (size : Nat),
    print_array message buf size =
      printArrayHeader message size :: printArraySep :: printArrayLoop buf size ∧
    printArrayLoop buf size =
      (List.range size).flatMap (fun i =>
        hexByte (buf.getD i 0) ::
          (if (i + 1) % BYTES_PER_LINE = 0 then ["\r\n"] else [])) ∧
    ∀ b : Nat, ∃ c1 c2 : Char,
      hexByte b = String.mk ['0', 'x', c1, c2, ' '] ∧
      isHexDigitChar c1 = true ∧ isHexDigitChar c2 = true := by
  intro m buf size
  refine ⟨rfl, ?_, ?_⟩
  · rw [printArrayLoop, printArrayGoAux_eq, List.range_eq_range']
  · intro b
    exact ⟨_, _, rfl, hexDigit_isHex _ (Nat.mod_lt _ (by norm_num)),
      hexDigit_isHex _ (Nat.mod_lt _ (by norm_num))⟩

/-- C7: executed_api increments its argument, so the XIP check compares
21 against LOOP_VALUE + 1 = 21, succeeds, and the XIP phase emits the
success line (never the failure line); under all-successful calls the
main trace really reaches that phase without halting. -/
theorem c7_xip_increment_check :
    executed_api LOOP_VALUE = LOOP_VALUE + 1 ∧
    (∀ env : Env, xipEvents env =
      printsOf (print_array "4. XIP READ " (rxAfterXip env) SIZE_IN_BYTES) ++
        [Event.print xipHdr1, Event.print xipHdr2, Event.print xipSuccessLine,
          Event.print completedLine]) ∧
    (∀ env : Env, allOk env = true →
      (mainTrace env).1 =
        traceAfterRead2 env ++ verifyEvents (tx_buf env) (rxAfterRead2 env) ++
          xipEvents env ∧
      (mainTrace env).2 = false) := by
  refine ⟨by decide, ?_, ?_⟩
  · intro env
    rw [xipEvents, if_pos (by decide)]
    simp
  · intro env hok
    have hm := mainTrace_allOk env hok
    exact ⟨by rw [hm], by rw [hm]⟩

/-- Witness for C7 at a concrete environment. -/
theorem c7_xip_increment_check_witness :
    allOk envOk = true ∧ (mainTrace envOk).2 = false :=
  ⟨by decide, (c7_xip_increment_check.2.2 envOk (by decide)).2⟩

/-- C8: executed_api computes the increment modulo 256 on every byte
input, and in particular wraps 255 to 0. -/
theorem c8_executed_api_wrap :
    (∀ d : Nat, d < 256 → executed_api d = (d + 1) % 256) ∧
    executed_api 255 = 0 :=
  ⟨fun _ _ => rfl, by decide⟩

/-- Witness for C8 at a concrete byte. -/
theorem c8_executed_api_wrap_witness :
    (20 : Nat) < 256 ∧ executed_api 20 = (20 + 1) % 256 :=
  ⟨by decide, c8_executed_api_wrap.1 20 (by decide)⟩

/-- C9: immediately before each of the three operations that fill the
receive buffer (the read before write, the verification read-back, and
the XIP memcpy), the 64-byte receive buffer is entirely zero, having
just been cleared by the full-size memset. -/
theorem c9_rx_zeroed_before_fills : ∀ env : Env,
    rxPre1 env = List.replicate SIZE_IN_BYTES 0 ∧
    rxPre2 env = List.replicate SIZE_IN_BYTES 0 ∧
    rxPre3 env = List.replicate SIZE_IN_BYTES 0 ∧
    (∀ i, i < SIZE_IN_BYTES →
      (rxPre1 env).getD i 0 = 0 ∧ (rxPre2 env).getD i 0 = 0 ∧
        (rxPre3 env).getD i 0 = 0) := by
  intro env
  have h1 := rxPre1_eq env
  have h2 := rxPre2_eq env
  have h3 := rxPre3_eq env
  refine ⟨h1, h2, h3, ?_⟩
  intro i hi
  have hz : (List.replicate SIZE_IN_BYTES (0 : Nat)).getD i 0 = 0 := by
    rw [List.getD_eq_getElem?_getD, List.getElem?_replicate, if_pos hi]
    rfl
  rw [h1, h2, h3]
  exact ⟨hz, hz, hz⟩

/-- Witness for C9 at a concrete environment and index. -/
theorem c9_rx_zeroed_before_fills_witness :
    (3 : Nat) < SIZE_IN_BYTES ∧ (rxPre1 envOk).getD 3 0 = 0 ∧
      rxPre2 envOk = List.replicate SIZE_IN_BYTES 0 :=
  ⟨by decide, ((c9_rx_zeroed_before_fills envOk).2.2.2 3 (by decide)).1,
    (c9_rx_zeroed_before_fills envOk).2.1⟩

/-- C10: print_array is read-only on the data reachable through its
pointer arguments: running the loop as a state transformer leaves the
message and the buffer exactly as they were, and its accumulated output
is exactly the output of the pure print_array model. -/
theorem c10_print_array_frame : ∀ (message : String) (buf : List Nat) (size : Nat),
    (print_arraySt message buf size).1.1 = message ∧
    (print_arraySt message buf size).1.2 = buf ∧
    (print_arraySt message buf size).2 = print_array message buf size := by
  intro m buf size
  refine ⟨?_, ?_, ?_⟩
  · rw [print_arraySt, printArrayGoSt_fst]
  · rw [print_arraySt, printArrayGoSt_fst]
  · rw [print_arraySt, printArrayGoSt_snd, print_array, printArrayLoop]
    rfl

end HyperramRW
